import Mathlib

/-!
Shallow embedding of `PopupHandler` from
`src/lib/msal-browser/src/interaction_handler/PopupHandler.ts`:
the launcher `initiateAuthRequest` and the monitor `monitorPopupForHash`.

The popup window is externally owned; at each poll instant it exposes a
`closed` flag and (once same-origin) a `location.hash` string.  The evolution
of the window is a parameter `W : ℕ → PopupState` giving the state observed
at the i-th poll instant.  The recognized-hash predicate
`UrlString.hashContainsKnownProperties` and the helpers in `PopupUtils` live
outside `src/`, so they are treated as parameters or modelled from the spec
where noted.
-/

/-- Observable state of the externally owned popup window at one poll
instant: `closed` mirrors `popupWindow.closed`, `hash` mirrors
`popupWindow.location.hash` (readable once the same-origin gate resolved). -/
structure PopupState where
  closed : Bool
  hash : String
deriving Repr, DecidableEq

/-- A side effect performed inside the interval callback, in program order:
`cleanupWithPopup`/`cleanupWithoutPopup` mirror `this.popupUtils.cleanPopup(popupWindow)`
and `this.popupUtils.cleanPopup()`, `clearTimer` mirrors `clearInterval(intervalId)`,
and the last three mirror `resolve`/`reject` of the returned promise. -/
inductive Ev where
  | cleanupWithPopup
  | cleanupWithoutPopup
  | clearTimer
  | resolveHash (h : String)
  | rejectUserCancelled
  | rejectMonitorTimeout
deriving Repr, DecidableEq

/-- Whether an event settles the promise (resolve or reject). -/
def Ev.isSettle : Ev → Bool
  | Ev.resolveHash _ => true
  | Ev.rejectUserCancelled => true
  | Ev.rejectMonitorTimeout => true
  | _ => false

/-- The three terminal outcomes of a monitoring session. -/
inductive Outcome where
  | success (hash : String)
  | cancelled
  | timedOut
deriving Repr, DecidableEq

/-- The record of a finished monitoring session: the events emitted by the
terminal interval callback (in program order), the terminal outcome, the
1-based index `endTick` of the interval callback (counted from the gate
resolution) on which the session terminated, and the final value of the
`ticks` counter. -/
structure Session where
  events : List Ev
  outcome : Outcome
  endTick : ℕ
  ticks : ℕ
deriving Repr, DecidableEq

/-- `const maxTicks = timeout / BrowserConstants.POLL_INTERVAL_MS;` —
JavaScript division, which does not floor; modelled as rational division.
(`BrowserConstants.POLL_INTERVAL_MS` is outside `src/`, so the poll interval
is a parameter.) -/
def maxTicks (timeout pollIntervalMs : ℕ) : ℚ :=
  (timeout : ℚ) / (pollIntervalMs : ℚ)

/-- The body of `setInterval(() => {...}, POLL_INTERVAL_MS)` together with
the tail of the loop: `obs i` is the popup state observed by the i-th
interval callback after the gate resolved, `n` the 1-based index of the
current callback, `ticks` the current counter.  Mirrors lines 67-91 of
`PopupHandler.ts`: closed-check, then `ticks++`, hash read and known-hash
check, then the `ticks > maxTicks` check, else wait for the next tick. -/
def pollLoop (known : String → Bool) (timeout poll : ℕ)
    (obs : ℕ → PopupState) (n ticks : ℕ) : Session :=
  if (obs n).closed = true then
    { events := [Ev.cleanupWithoutPopup, Ev.clearTimer, Ev.rejectUserCancelled],
      outcome := Outcome.cancelled, endTick := n, ticks := ticks }
  else if known (obs n).hash = true then
    { events := [Ev.cleanupWithPopup, Ev.clearTimer, Ev.resolveHash ((obs n).hash)],
      outcome := Outcome.success ((obs n).hash), endTick := n, ticks := ticks + 1 }
  else if h : ((ticks + 1 : ℕ) : ℚ) > maxTicks timeout poll then
    { events := [Ev.cleanupWithPopup, Ev.clearTimer, Ev.rejectMonitorTimeout],
      outcome := Outcome.timedOut, endTick := n, ticks := ticks + 1 }
  else
    pollLoop known timeout poll obs (n + 1) (ticks + 1)
termination_by timeout / poll + 1 - ticks
decreasing_by
  push_neg at h
  have hp : 0 < poll := by
    by_contra hp0
    have hz : poll = 0 := by omega
    subst hz
    rw [maxTicks] at h
    norm_num at h
    linarith
  have hq : ((ticks + 1 : ℕ) : ℚ) * (poll : ℚ) ≤ (timeout : ℚ) := by
    rw [maxTicks, le_div_iff₀ (by exact_mod_cast hp)] at h
    exact h
  have hnat : (ticks + 1) * poll ≤ timeout := by exact_mod_cast hq
  have hle : ticks + 1 ≤ timeout / poll := (Nat.le_div_iff_mul_le hp).mpr hnat
  omega

/-- Outcome of `PopupUtils.monitorPopupForSameOrigin` (outside `src/`;
per the spec it waits, unbounded by the timeout budget, until the popup's
location becomes same-origin readable): it either resolves after some number
of its own polls, or fails (never resolves / rejects). -/
inductive GateResult where
  | resolves (afterPolls : ℕ)
  | failed
deriving Repr, DecidableEq

/-- `monitorPopupForHash(popupWindow, timeout)` (lines 57-94).  The gate
outcome is the parameter `gate`; `W i` is the popup state at the i-th poll
instant overall.  When the gate resolves after `g` polls, the interval
callbacks observe `W (g+1), W (g+2), ...` with the `ticks` counter started
at 0.  When the gate fails, its rejection has no handler: the interval loop
is never started and the returned promise never settles (`none`). -/
def monitorPopupForHash (known : String → Bool) (timeout poll : ℕ)
    (gate : GateResult) (W : ℕ → PopupState) : Option Session :=
  match gate with
  | GateResult.failed => none
  | GateResult.resolves g =>
      some (pollLoop known timeout poll (fun i => W (g + i)) 1 0)

/-- The events emitted by a monitoring session (none when the promise never
settles because the gate failed). -/
def sessionEvents : Option Session → List Ev
  | none => []
  | some s => s.events

/-- Modelled from the spec: `PopupUtils.cleanPopup` (in `PopupUtils.ts`,
outside `src/`) — clears the timer reference and, when a surface handle is
supplied, closes it; without a handle it does not touch any surface. -/
def cleanPopup (popup : Option PopupState) : Option PopupState :=
  popup.map (fun w => { w with closed := true })

/-- The three `BrowserAuthError` kinds raised by `PopupHandler`
(`createEmptyNavigationUriError`, `createUserCancelledError`,
`createMonitorPopupTimeoutError`). -/
inductive BrowserAuthErrorKind where
  | emptyNavigateUri
  | userCancelled
  | monitorPopupTimeout
deriving Repr, DecidableEq

namespace StringUtils

/-- Modelled from the spec: `StringUtils.isEmpty` (string utilities, outside
`src/`) — whether the target URL is empty/blank. -/
def isEmpty (s : String) : Bool := s = ""

end StringUtils

/-- `BrowserConstants.INTERACTION_IN_PROGRESS_VALUE`. -/
def INTERACTION_IN_PROGRESS_VALUE : String := "interaction_in_progress"

/-- The browser storage state visible to `initiateAuthRequest`: the value of
the temporary-cache entry under `TemporaryCacheKeys.INTERACTION_STATUS_KEY`. -/
structure BrowserState where
  interactionStatus : Option String
deriving Repr, DecidableEq

/-- A popup window handle as produced by the launcher. -/
structure PopupWindow where
  url : String
  name : String
  reusedExisting : Bool
deriving Repr, DecidableEq

/-- Modelled from the spec: `PopupUtils.openPopup` (outside `src/`) — opens,
or adopts the supplied existing surface, navigated to `url` under `name`. -/
def openPopup (url name : String) (existing : Option PopupWindow) : PopupWindow :=
  { url := url, name := name, reusedExisting := existing.isSome }

/-- `initiateAuthRequest(requestUrl, params)` (lines 37-50): if the request
URL is non-empty, set the interaction status in the temporary cache, open
the popup and return it; otherwise throw `EmptyNavigationUriError` without
touching the storage state. -/
def initiateAuthRequest (requestUrl popupName : String)
    (popup : Option PopupWindow) (st : BrowserState) :
    Except BrowserAuthErrorKind PopupWindow × BrowserState :=
  if !(StringUtils.isEmpty requestUrl) then
    let st' : BrowserState :=
      { st with interactionStatus := some INTERACTION_IN_PROGRESS_VALUE }
    (Except.ok (openPopup requestUrl popupName popup), st')
  else
    (Except.error BrowserAuthErrorKind.emptyNavigateUri, st)

/-- The source's non-floored guard `ticks > maxTicks` (rational division)
agrees, on integer tick counts, with exceeding the floored budget
`timeout / poll`. -/
theorem maxTicks_guard_iff (timeout poll k : ℕ) :
    (((k : ℕ) : ℚ) > maxTicks timeout poll) ↔ timeout / poll < k := by
  rcases Nat.eq_zero_or_pos poll with hp | hp
  · subst hp
    rw [maxTicks]
    norm_num
  · rw [gt_iff_lt, maxTicks, div_lt_iff₀ (by exact_mod_cast hp),
      Nat.div_lt_iff_lt_mul hp]
    exact_mod_cast Iff.rfl

/-- The poll loop never terminates on an interval callback earlier than the
one it starts on. -/
theorem pollLoop_endTick_ge (known : String → Bool) (timeout poll : ℕ)
    (obs : ℕ → PopupState) (n ticks : ℕ) :
    n ≤ (pollLoop known timeout poll obs n ticks).endTick := by
  induction n, ticks using pollLoop.induct known timeout poll obs with
  | case1 n ticks h1 =>
      rw [pollLoop, if_pos h1]
  | case2 n ticks h1 h2 =>
      rw [pollLoop, if_neg h1, if_pos h2]
  | case3 n ticks h1 h2 h3 =>
      rw [pollLoop, if_neg h1, if_neg h2, dif_pos h3]
  | case4 n ticks h1 h2 h3 ih =>
      rw [pollLoop, if_neg h1, if_neg h2, dif_neg h3]
      omega

/-- Run lemma, timeout path: if the popup stays open and its hash is never
recognized, the loop runs until the counter reaches `timeout / poll + 1`
and ends by timeout. -/
theorem pollLoop_run_timedOut (known : String → Bool) (timeout poll : ℕ)
    (obs : ℕ → PopupState)
    (hopen : ∀ i, (obs i).closed = false)
    (hunk : ∀ i, known (obs i).hash = false) :
    ∀ d n ticks, timeout / poll = ticks + d →
      pollLoop known timeout poll obs n ticks =
        { events := [Ev.cleanupWithPopup, Ev.clearTimer, Ev.rejectMonitorTimeout],
          outcome := Outcome.timedOut, endTick := n + d,
          ticks := timeout / poll + 1 } := by
  intro d
  induction d with
  | zero =>
      intro n ticks hd
      have hg : ((ticks + 1 : ℕ) : ℚ) > maxTicks timeout poll :=
        (maxTicks_guard_iff timeout poll (ticks + 1)).mpr (by omega)
      rw [pollLoop, if_neg (by simp [hopen n]), if_neg (by simp [hunk n]),
        dif_pos hg]
      rw [Session.mk.injEq]
      exact ⟨rfl, rfl, by omega, by omega⟩
  | succ d ih =>
      intro n ticks hd
      have hg : ¬ (((ticks + 1 : ℕ) : ℚ) > maxTicks timeout poll) := by
        rw [maxTicks_guard_iff]
        omega
      rw [pollLoop, if_neg (by simp [hopen n]), if_neg (by simp [hunk n]),
        dif_neg hg, ih (n + 1) (ticks + 1) (by omega)]
      rw [Session.mk.injEq]
      exact ⟨rfl, rfl, by omega, rfl⟩

/-- Run lemma, success path: if ticks `n .. k-1` see an open popup with an
unrecognized hash, the budget is not exhausted strictly before `k`, and tick
`k` sees an open popup with a recognized hash, the loop resolves at tick `k`
with that hash, the counter having been incremented on every tick. -/
theorem pollLoop_run_success (known : String → Bool) (timeout poll : ℕ)
    (obs : ℕ → PopupState) (k : ℕ)
    (hcl : (obs k).closed = false) (hhit : known (obs k).hash = true) :
    ∀ d n ticks, n + d = k →
      (∀ i, n ≤ i → i < k → (obs i).closed = false ∧ known (obs i).hash = false) →
      ticks + d ≤ timeout / poll →
      pollLoop known timeout poll obs n ticks =
        { events := [Ev.cleanupWithPopup, Ev.clearTimer,
                     Ev.resolveHash ((obs k).hash)],
          outcome := Outcome.success ((obs k).hash), endTick := k,
          ticks := ticks + d + 1 } := by
  intro d
  induction d with
  | zero =>
      intro n ticks hn _ _
      have hnk : n = k := by omega
      subst hnk
      rw [pollLoop, if_neg (by simp [hcl]), if_pos hhit]
  | succ d ih =>
      intro n ticks hn hmid hbud
      have h1 := hmid n le_rfl (by omega)
      have hg : ¬ (((ticks + 1 : ℕ) : ℚ) > maxTicks timeout poll) := by
        rw [maxTicks_guard_iff]
        omega
      rw [pollLoop, if_neg (by simp [h1.1]), if_neg (by simp [h1.2]), dif_neg hg,
        ih (n + 1) (ticks + 1) (by omega)
          (fun i hi hik => hmid i (by omega) hik) (by omega)]
      rw [Session.mk.injEq]
      exact ⟨rfl, rfl, rfl, by omega⟩

/-- Run lemma, cancellation path: if ticks `n .. k-1` see an open popup with
an unrecognized hash, the budget is not exhausted strictly before `k`, and
tick `k` sees a closed popup, the loop cancels at tick `k` without
incrementing the counter on that tick. -/
theorem pollLoop_run_cancelled (known : String → Bool) (timeout poll : ℕ)
    (obs : ℕ → PopupState) (k : ℕ)
    (hcl : (obs k).closed = true) :
    ∀ d n ticks, n + d = k →
      (∀ i, n ≤ i → i < k → (obs i).closed = false ∧ known (obs i).hash = false) →
      ticks + d ≤ timeout / poll →
      pollLoop known timeout poll obs n ticks =
        { events := [Ev.cleanupWithoutPopup, Ev.clearTimer,
                     Ev.rejectUserCancelled],
          outcome := Outcome.cancelled, endTick := k, ticks := ticks + d } := by
  intro d
  induction d with
  | zero =>
      intro n ticks hn _ _
      have hnk : n = k := by omega
      subst hnk
      rw [pollLoop, if_pos hcl, Session.mk.injEq]
      exact ⟨rfl, rfl, rfl, by omega⟩
  | succ d ih =>
      intro n ticks hn hmid hbud
      have h1 := hmid n le_rfl (by omega)
      have hg : ¬ (((ticks + 1 : ℕ) : ℚ) > maxTicks timeout poll) := by
        rw [maxTicks_guard_iff]
        omega
      rw [pollLoop, if_neg (by simp [h1.1]), if_neg (by simp [h1.2]), dif_neg hg,
        ih (n + 1) (ticks + 1) (by omega)
          (fun i hi hik => hmid i (by omega) hik) (by omega)]
      rw [Session.mk.injEq]
      exact ⟨rfl, rfl, rfl, by omega⟩

/-- The run of the poll loop depends only on the popup states observed up to
its own terminal tick: two observation sequences agreeing on the ticks up to
`(pollLoop … obs n ticks).endTick` produce identical sessions. -/
theorem pollLoop_agree (known : String → Bool) (timeout poll : ℕ)
    (obs obs' : ℕ → PopupState) :
    ∀ n ticks,
      (∀ i, n ≤ i → i ≤ (pollLoop known timeout poll obs n ticks).endTick →
        obs i = obs' i) →
      pollLoop known timeout poll obs' n ticks
        = pollLoop known timeout poll obs n ticks := by
  intro n ticks
  induction n, ticks using pollLoop.induct known timeout poll obs with
  | case1 n ticks h1 =>
      intro hag
      have hend : (pollLoop known timeout poll obs n ticks).endTick = n := by
        rw [pollLoop, if_pos h1]
      have he : obs n = obs' n := hag n le_rfl (hend.ge)
      rw [pollLoop, if_pos (he ▸ h1), pollLoop, if_pos h1]
  | case2 n ticks h1 h2 =>
      intro hag
      have hend : (pollLoop known timeout poll obs n ticks).endTick = n := by
        rw [pollLoop, if_neg h1, if_pos h2]
      have he : obs n = obs' n := hag n le_rfl (hend.ge)
      rw [pollLoop, if_neg (he ▸ h1), if_pos (he ▸ h2),
        pollLoop, if_neg h1, if_pos h2, he]
  | case3 n ticks h1 h2 h3 =>
      intro hag
      have hend : (pollLoop known timeout poll obs n ticks).endTick = n := by
        rw [pollLoop, if_neg h1, if_neg h2, dif_pos h3]
      have he : obs n = obs' n := hag n le_rfl (hend.ge)
      rw [pollLoop, if_neg (he ▸ h1), if_neg (he ▸ h2), dif_pos h3,
        pollLoop, if_neg h1, if_neg h2, dif_pos h3]
  | case4 n ticks h1 h2 h3 ih =>
      intro hag
      have hrec : pollLoop known timeout poll obs n ticks
          = pollLoop known timeout poll obs (n + 1) (ticks + 1) := by
        rw [pollLoop, if_neg h1, if_neg h2, dif_neg h3]
      have hge : n + 1 ≤ (pollLoop known timeout poll obs (n + 1) (ticks + 1)).endTick :=
        pollLoop_endTick_ge known timeout poll obs (n + 1) (ticks + 1)
      have he : obs n = obs' n := hag n le_rfl (by rw [hrec]; omega)
      rw [pollLoop, if_neg (he ▸ h1), if_neg (he ▸ h2), dif_neg h3, hrec]
      exact ih (fun i hi hile => hag i (by omega) (by rw [hrec]; exact hile))

/-- The terminal callback emits exactly one of the three event lists, each
of the form cleanup, clear timer, settle. -/
theorem pollLoop_events_shape (known : String → Bool) (timeout poll : ℕ)
    (obs : ℕ → PopupState) (n ticks : ℕ) :
    (pollLoop known timeout poll obs n ticks).events
        = [Ev.cleanupWithoutPopup, Ev.clearTimer, Ev.rejectUserCancelled]
    ∨ (∃ h, (pollLoop known timeout poll obs n ticks).events
        = [Ev.cleanupWithPopup, Ev.clearTimer, Ev.resolveHash h])
    ∨ (pollLoop known timeout poll obs n ticks).events
        = [Ev.cleanupWithPopup, Ev.clearTimer, Ev.rejectMonitorTimeout] := by
  induction n, ticks using pollLoop.induct known timeout poll obs with
  | case1 n ticks h1 =>
      left
      rw [pollLoop, if_pos h1]
  | case2 n ticks h1 h2 =>
      right; left
      exact ⟨(obs n).hash, by rw [pollLoop, if_neg h1, if_pos h2]⟩
  | case3 n ticks h1 h2 h3 =>
      right; right
      rw [pollLoop, if_neg h1, if_neg h2, dif_pos h3]
  | case4 n ticks h1 h2 h3 ih =>
      rw [pollLoop, if_neg h1, if_neg h2, dif_neg h3]
      exact ih

/-- C1: `monitorPopupForHash` performs no tick evaluation and can produce no
result before the same-origin gate resolves: the counter starts at 0 on the
first interval callback after the gate, the session depends only on the
popup states observed after the gate (polls elapsed while cross-origin never
count against the budget), every terminal tick lies strictly after the gate
resolution instant, and the wait at the gate is not bounded by the timeout
budget. -/
theorem monitorPopupForHash_gate_before_ticks (known : String → Bool)
    (timeout poll : ℕ) (W : ℕ → PopupState) :
    (∀ g, monitorPopupForHash known timeout poll (GateResult.resolves g) W
        = some (pollLoop known timeout poll (fun i => W (g + i)) 1 0))
    ∧ (∀ g g' (W' : ℕ → PopupState),
        (∀ i, 1 ≤ i → W (g + i) = W' (g' + i)) →
        monitorPopupForHash known timeout poll (GateResult.resolves g) W
          = monitorPopupForHash known timeout poll (GateResult.resolves g') W')
    ∧ (∀ g s, monitorPopupForHash known timeout poll (GateResult.resolves g) W
          = some s → g + 1 ≤ g + s.endTick)
    ∧ (∀ B, ∃ g, ∀ s,
        monitorPopupForHash known timeout poll (GateResult.resolves g) W
          = some s → B < g + s.endTick) := by
  have hend : ∀ g s, monitorPopupForHash known timeout poll (GateResult.resolves g) W
      = some s → 1 ≤ s.endTick := by
    intro g s hs
    have h1 : pollLoop known timeout poll (fun i => W (g + i)) 1 0 = s :=
      Option.some.inj hs
    have h2 := pollLoop_endTick_ge known timeout poll (fun i => W (g + i)) 1 0
    rw [h1] at h2
    exact h2
  refine ⟨fun g => rfl, ?_, ?_, ?_⟩
  · intro g g' W' hag
    show some _ = some _
    congr 1
    exact (pollLoop_agree known timeout poll (fun i => W (g + i))
      (fun i => W' (g' + i)) 1 0 (fun i hi _ => hag i hi)).symm
  · intro g s hs
    have := hend g s hs
    omega
  · intro B
    refine ⟨B, fun s hs => ?_⟩
    have := hend B s hs
    omega

/-- C1 witness: with the gate resolving after 7 polls and after 0 polls over
pointwise-agreeing observation windows, the sessions coincide. -/
theorem monitorPopupForHash_gate_before_ticks_w :
    monitorPopupForHash (fun _ => false) 6000 2000 (GateResult.resolves 7)
        (fun _ => { closed := true, hash := "" })
      = monitorPopupForHash (fun _ => false) 6000 2000 (GateResult.resolves 0)
        (fun _ => { closed := true, hash := "" }) :=
  (monitorPopupForHash_gate_before_ticks (fun _ => false) 6000 2000
    (fun _ => { closed := true, hash := "" })).2.1 7 0
    (fun _ => { closed := true, hash := "" }) (fun _ _ => rfl)

/-- C2: the effective tick budget is `floor(timeout / poll)`: the source's
non-floored guard `ticks > maxTicks` agrees on integer tick counts with
exceeding `timeout / poll`, and a session that never observes closure or a
recognized hash is rejected by timeout on the first tick whose count exceeds
`timeout / poll`. -/
theorem monitorPopupForHash_maxTicks_floor (known : String → Bool)
    (timeout poll g : ℕ) (W : ℕ → PopupState)
    (hopen : ∀ i, (W i).closed = false)
    (hunk : ∀ i, known (W i).hash = false) :
    (∀ k : ℕ, (((k : ℕ) : ℚ) > maxTicks timeout poll ↔ timeout / poll < k))
    ∧ monitorPopupForHash known timeout poll (GateResult.resolves g) W
        = some { events := [Ev.cleanupWithPopup, Ev.clearTimer,
                            Ev.rejectMonitorTimeout],
                 outcome := Outcome.timedOut, endTick := timeout / poll + 1,
                 ticks := timeout / poll + 1 } := by
  refine ⟨fun k => maxTicks_guard_iff timeout poll k, ?_⟩
  show some _ = some _
  congr 1
  rw [pollLoop_run_timedOut known timeout poll (fun i => W (g + i))
    (fun i => hopen (g + i)) (fun i => hunk (g + i)) (timeout / poll) 1 0
    (by omega)]
  rw [Session.mk.injEq]
  exact ⟨rfl, rfl, by omega, rfl⟩

/-- C2 witness: timeout 6000, poll interval 2000, always-open popup with a
never-recognized hash: rejected by timeout on tick 4 with counter 4. -/
theorem monitorPopupForHash_maxTicks_floor_w :
    monitorPopupForHash (fun _ => false) 6000 2000 (GateResult.resolves 0)
        (fun _ => { closed := false, hash := "" })
      = some { events := [Ev.cleanupWithPopup, Ev.clearTimer,
                          Ev.rejectMonitorTimeout],
               outcome := Outcome.timedOut, endTick := 4, ticks := 4 } :=
  (monitorPopupForHash_maxTicks_floor (fun _ => false) 6000 2000 0
    (fun _ => { closed := false, hash := "" }) (fun _ => rfl) (fun _ => rfl)).2

/-- C3: the closed-check is evaluated before the hash-check on every tick:
an interval callback that observes the popup simultaneously closed and
carrying a recognized hash terminates the session as Cancelled (rejecting
user-cancelled), never as Success. -/
theorem pollLoop_closed_beats_hash (known : String → Bool)
    (timeout poll g n ticks : ℕ) (obs W : ℕ → PopupState)
    (hcl : (obs n).closed = true) (_hhash : known (obs n).hash = true) :
    pollLoop known timeout poll obs n ticks
      = { events := [Ev.cleanupWithoutPopup, Ev.clearTimer,
                     Ev.rejectUserCancelled],
          outcome := Outcome.cancelled, endTick := n, ticks := ticks }
    ∧ (∀ h, (pollLoop known timeout poll obs n ticks).outcome
          ≠ Outcome.success h)
    ∧ ((W (g + 1)).closed = true → known ((W (g + 1)).hash) = true →
        monitorPopupForHash known timeout poll (GateResult.resolves g) W
          = some { events := [Ev.cleanupWithoutPopup, Ev.clearTimer,
                              Ev.rejectUserCancelled],
                   outcome := Outcome.cancelled, endTick := 1, ticks := 0 }) := by
  have hmain : pollLoop known timeout poll obs n ticks
      = { events := [Ev.cleanupWithoutPopup, Ev.clearTimer,
                     Ev.rejectUserCancelled],
          outcome := Outcome.cancelled, endTick := n, ticks := ticks } := by
    rw [pollLoop, if_pos hcl]
  refine ⟨hmain, ?_, ?_⟩
  · intro h
    rw [hmain]
    simp
  · intro hcl' hh'
    show some _ = some _
    congr 1
    rw [pollLoop, if_pos hcl']
  
/-- C3 witness: a popup observed closed while carrying a hash the predicate
recognizes is cancelled, not resolved. -/
theorem pollLoop_closed_beats_hash_w :
    pollLoop (fun _ => true) 6000 2000
        (fun _ => { closed := true, hash := "#code=x" }) 1 0
      = { events := [Ev.cleanupWithoutPopup, Ev.clearTimer,
                     Ev.rejectUserCancelled],
          outcome := Outcome.cancelled, endTick := 1, ticks := 0 } :=
  (pollLoop_closed_beats_hash (fun _ => true) 6000 2000 0 1 0
    (fun _ => { closed := true, hash := "#code=x" })
    (fun _ => { closed := true, hash := "#code=x" }) rfl rfl).1

/-- C4: at most one terminal transition fires per session — the event trace
holds exactly one settle event, emitted immediately after the timer is
cleared (cleanup first, then clear, then settle) — and after termination no
further poll instant can influence the session: the result is unchanged
under any modification of the popup states beyond the terminal tick. -/
theorem monitorPopupForHash_single_settlement (known : String → Bool)
    (timeout poll g : ℕ) (W : ℕ → PopupState) (s : Session)
    (hs : monitorPopupForHash known timeout poll (GateResult.resolves g) W
        = some s) :
    (s.events.filter (fun e => e.isSettle)).length = 1
    ∧ (∃ c settle, s.events = [c, Ev.clearTimer, settle]
        ∧ settle.isSettle = true ∧ c.isSettle = false)
    ∧ (∀ W' : ℕ → PopupState, (∀ i, i ≤ g + s.endTick → W i = W' i) →
        monitorPopupForHash known timeout poll (GateResult.resolves g) W'
          = some s) := by
  have h1 : pollLoop known timeout poll (fun i => W (g + i)) 1 0 = s :=
    Option.some.inj hs
  have hshape := pollLoop_events_shape known timeout poll (fun i => W (g + i)) 1 0
  rw [h1] at hshape
  refine ⟨?_, ?_, ?_⟩
  · rcases hshape with h | ⟨h, hEq⟩ | h
    · rw [h]; rfl
    · rw [hEq]; rfl
    · rw [h]; rfl
  · rcases hshape with h | ⟨h, hEq⟩ | h
    · exact ⟨Ev.cleanupWithoutPopup, Ev.rejectUserCancelled, h, rfl, rfl⟩
    · exact ⟨Ev.cleanupWithPopup, Ev.resolveHash h, hEq, rfl, rfl⟩
    · exact ⟨Ev.cleanupWithPopup, Ev.rejectMonitorTimeout, h, rfl, rfl⟩
  · intro W' hag
    have h2 : pollLoop known timeout poll (fun i => W' (g + i)) 1 0
        = pollLoop known timeout poll (fun i => W (g + i)) 1 0 :=
      pollLoop_agree known timeout poll (fun i => W (g + i))
        (fun i => W' (g + i)) 1 0
        (fun i _ hile => hag (g + i) (by rw [h1] at hile; omega))
    show some _ = some _
    rw [h2, h1]

/-- C4 witness: the cancelled session's trace holds exactly one settle
event. -/
theorem monitorPopupForHash_single_settlement_w :
    (((Session.mk
        [Ev.cleanupWithoutPopup, Ev.clearTimer, Ev.rejectUserCancelled]
        Outcome.cancelled 1 0).events.filter (fun e => e.isSettle)).length)
      = 1 :=
  (monitorPopupForHash_single_settlement (fun _ => false) 6000 2000 0
    (fun _ => { closed := true, hash := "" })
    (Session.mk [Ev.cleanupWithoutPopup, Ev.clearTimer, Ev.rejectUserCancelled]
      Outcome.cancelled 1 0)
    (by show some _ = some _; congr 1; rw [pollLoop, if_pos rfl])).1

/-- C5: for a popup that stays open with a never-recognized hash, the
monitor rejects by timeout exactly when the tick counter first exceeds
`maxTicks`, cleanup is invoked with the popup — closing it — before the
rejection is delivered, and with timeout 6000 and poll interval 2000 the
rejection happens on tick 4. -/
theorem monitorPopupForHash_timeout_path (known : String → Bool)
    (timeout poll g : ℕ) (W : ℕ → PopupState)
    (hopen : ∀ i, (W i).closed = false)
    (hunk : ∀ i, known ((W i).hash) = false) :
    monitorPopupForHash known timeout poll (GateResult.resolves g) W
      = some { events := [Ev.cleanupWithPopup, Ev.clearTimer,
                          Ev.rejectMonitorTimeout],
               outcome := Outcome.timedOut, endTick := timeout / poll + 1,
               ticks := timeout / poll + 1 }
    ∧ ((((timeout / poll + 1 : ℕ)) : ℚ) > maxTicks timeout poll
        ∧ ∀ k : ℕ, k < timeout / poll + 1 →
            ¬ (((k : ℕ) : ℚ) > maxTicks timeout poll))
    ∧ cleanPopup (some (W (g + (timeout / poll + 1))))
        = some { W (g + (timeout / poll + 1)) with closed := true }
    ∧ (timeout = 6000 → poll = 2000 → timeout / poll + 1 = 4) := by
  refine ⟨?_, ⟨?_, ?_⟩, rfl, ?_⟩
  · show some _ = some _
    congr 1
    rw [pollLoop_run_timedOut known timeout poll (fun i => W (g + i))
      (fun i => hopen (g + i)) (fun i => hunk (g + i)) (timeout / poll) 1 0
      (by omega)]
    rw [Session.mk.injEq]
    exact ⟨rfl, rfl, by omega, rfl⟩
  · exact (maxTicks_guard_iff timeout poll (timeout / poll + 1)).mpr (by omega)
  · intro k hk
    rw [maxTicks_guard_iff]
    omega
  · intro h1 h2
    subst h1
    subst h2
    rfl

/-- C5 witness: timeout 6000, poll interval 2000, gate resolved after 3
polls, popup open forever with an unrecognized hash: rejected by timeout on
tick 4. -/
theorem monitorPopupForHash_timeout_path_w :
    monitorPopupForHash (fun h => h == "#code=y") 6000 2000
        (GateResult.resolves 3) (fun _ => { closed := false, hash := "" })
      = some { events := [Ev.cleanupWithPopup, Ev.clearTimer,
                          Ev.rejectMonitorTimeout],
               outcome := Outcome.timedOut, endTick := 4, ticks := 4 } :=
  (monitorPopupForHash_timeout_path (fun h => h == "#code=y") 6000 2000 3
    (fun _ => { closed := false, hash := "" })
    (fun _ => rfl)
    (fun _ => (by decide : (("" : String) == "#code=y") = false))).1

/-- C6: for a popup whose hash becomes recognized on tick `k` within the
tick budget, the popup being open on that tick, the monitor resolves
Success with exactly the hash read on tick `k`, and cleanup is invoked
with the popup, closing it. -/
theorem monitorPopupForHash_success_path (known : String → Bool)
    (timeout poll g k : ℕ) (W : ℕ → PopupState)
    (hk1 : 1 ≤ k) (hbudget : k ≤ timeout / poll + 1)
    (hopen : ∀ i, 1 ≤ i → i ≤ k → (W (g + i)).closed = false)
    (hunk : ∀ i, 1 ≤ i → i < k → known ((W (g + i)).hash) = false)
    (hhit : known ((W (g + k)).hash) = true) :
    monitorPopupForHash known timeout poll (GateResult.resolves g) W
      = some { events := [Ev.cleanupWithPopup, Ev.clearTimer,
                          Ev.resolveHash ((W (g + k)).hash)],
               outcome := Outcome.success ((W (g + k)).hash),
               endTick := k, ticks := k }
    ∧ cleanPopup (some (W (g + k)))
        = some { W (g + k) with closed := true } := by
  refine ⟨?_, rfl⟩
  show some _ = some _
  congr 1
  rw [pollLoop_run_success known timeout poll (fun i => W (g + i)) k
    (hopen k hk1 le_rfl) hhit (k - 1) 1 0 (by omega)
    (fun i hi hik => ⟨hopen i hi (by omega), hunk i hi hik⟩)
    (by omega)]
  rw [Session.mk.injEq]
  exact ⟨rfl, rfl, rfl, by omega⟩

/-- C6 witness: timeout 6000, poll interval 2000, recognized hash appearing
on tick 2: resolves Success with that hash on tick 2, before tick 4. -/
theorem monitorPopupForHash_success_path_w :
    monitorPopupForHash (fun h => h == "#code=1") 6000 2000
        (GateResult.resolves 0)
        (fun i => { closed := false, hash := if i = 2 then "#code=1" else "" })
      = some { events := [Ev.cleanupWithPopup, Ev.clearTimer,
                          Ev.resolveHash "#code=1"],
               outcome := Outcome.success "#code=1", endTick := 2, ticks := 2 } :=
  (monitorPopupForHash_success_path (fun h => h == "#code=1") 6000 2000 0 2
    (fun i => { closed := false, hash := if i = 2 then "#code=1" else "" })
    (by omega) (by decide)
    (fun _ _ _ => rfl)
    (fun i h1 h2 => by
      have hne : ¬ (0 + i = 2) := by omega
      simp only [if_neg hne]
      decide)
    (by decide)).1

/-- C7: for a popup observed closed on tick `k` before any recognized hash
appeared, the monitor rejects user-cancelled, the counter having not been
incremented on the closing tick, and cleanup is invoked without the popup
handle, so it does not attempt to close the already-closed popup. -/
theorem monitorPopupForHash_cancel_path (known : String → Bool)
    (timeout poll g k : ℕ) (W : ℕ → PopupState)
    (hk1 : 1 ≤ k) (hbudget : k ≤ timeout / poll + 1)
    (hopen : ∀ i, 1 ≤ i → i < k → (W (g + i)).closed = false)
    (hunk : ∀ i, 1 ≤ i → i < k → known ((W (g + i)).hash) = false)
    (hclosed : (W (g + k)).closed = true) :
    monitorPopupForHash known timeout poll (GateResult.resolves g) W
      = some { events := [Ev.cleanupWithoutPopup, Ev.clearTimer,
                          Ev.rejectUserCancelled],
               outcome := Outcome.cancelled, endTick := k, ticks := k - 1 }
    ∧ cleanPopup none = none := by
  refine ⟨?_, rfl⟩
  show some _ = some _
  congr 1
  rw [pollLoop_run_cancelled known timeout poll (fun i => W (g + i)) k hclosed
    (k - 1) 1 0 (by omega)
    (fun i hi hik => ⟨hopen i hi hik, hunk i hi hik⟩)
    (by omega)]
  rw [Session.mk.injEq]
  exact ⟨rfl, rfl, rfl, by omega⟩

/-- C7 witness: popup closed on the first tick: rejected user-cancelled with
the counter still 0 and cleanup invoked without the popup handle. -/
theorem monitorPopupForHash_cancel_path_w :
    monitorPopupForHash (fun _ => false) 6000 2000 (GateResult.resolves 0)
        (fun _ => { closed := true, hash := "" })
      = some { events := [Ev.cleanupWithoutPopup, Ev.clearTimer,
                          Ev.rejectUserCancelled],
               outcome := Outcome.cancelled, endTick := 1, ticks := 0 } :=
  (monitorPopupForHash_cancel_path (fun _ => false) 6000 2000 0 1
    (fun _ => { closed := true, hash := "" })
    le_rfl (by decide)
    (fun i h1 h2 => absurd h2 (by omega))
    (fun i h1 h2 => absurd h2 (by omega))
    rfl).1

/-- C8: with an empty target URL `initiateAuthRequest` throws the
empty-navigation error, opens no popup, and leaves the storage state
unchanged (the interaction flag untouched); with a non-empty target URL it
sets the interaction status to in-progress and returns the opened popup. -/
theorem initiateAuthRequest_spec (requestUrl popupName : String)
    (popup : Option PopupWindow) (st : BrowserState) :
    (StringUtils.isEmpty requestUrl = true →
      initiateAuthRequest requestUrl popupName popup st
        = (Except.error BrowserAuthErrorKind.emptyNavigateUri, st))
    ∧ (StringUtils.isEmpty requestUrl = false →
      initiateAuthRequest requestUrl popupName popup st
        = (Except.ok (openPopup requestUrl popupName popup),
           { st with interactionStatus := some INTERACTION_IN_PROGRESS_VALUE })) := by
  constructor
  · intro h
    simp [initiateAuthRequest, h]
  · intro h
    simp [initiateAuthRequest, h]

/-- C8 witness: an empty target URL errors with the state unchanged; a
non-empty one opens the popup with the interaction flag set. -/
theorem initiateAuthRequest_spec_w :
    initiateAuthRequest "" "msal-popup" none { interactionStatus := none }
        = (Except.error BrowserAuthErrorKind.emptyNavigateUri,
           { interactionStatus := none })
    ∧ initiateAuthRequest "https://login.example" "msal-popup" none
          { interactionStatus := none }
        = (Except.ok (openPopup "https://login.example" "msal-popup" none),
           { interactionStatus := some INTERACTION_IN_PROGRESS_VALUE }) :=
  ⟨(initiateAuthRequest_spec "" "msal-popup" none
      { interactionStatus := none }).1 (by decide),
   (initiateAuthRequest_spec "https://login.example" "msal-popup" none
      { interactionStatus := none }).2 (by decide)⟩

/-- C9: an interval callback observing a closed popup neither increments
the counter nor reads the hash — its result is invariant under changing the
hash observed on that tick — while a callback observing an open popup
increments the counter: on the Success tick, on the timeout tick, and when
handing over to the next tick. -/
theorem pollLoop_tick_counter (known : String → Bool) (timeout poll : ℕ)
    (obs : ℕ → PopupState) (n ticks : ℕ) :
    ((obs n).closed = true →
      (pollLoop known timeout poll obs n ticks).ticks = ticks
      ∧ ∀ h : String,
          pollLoop known timeout poll
              (Function.update obs n { closed := true, hash := h }) n ticks
            = pollLoop known timeout poll obs n ticks)
    ∧ ((obs n).closed = false → known ((obs n).hash) = true →
      (pollLoop known timeout poll obs n ticks).ticks = ticks + 1
      ∧ (pollLoop known timeout poll obs n ticks).outcome
          = Outcome.success ((obs n).hash))
    ∧ ((obs n).closed = false → known ((obs n).hash) = false →
      ((ticks + 1 : ℕ) : ℚ) > maxTicks timeout poll →
      (pollLoop known timeout poll obs n ticks).ticks = ticks + 1)
    ∧ ((obs n).closed = false → known ((obs n).hash) = false →
      ¬ (((ticks + 1 : ℕ) : ℚ) > maxTicks timeout poll) →
      pollLoop known timeout poll obs n ticks
        = pollLoop known timeout poll obs (n + 1) (ticks + 1)) := by
  refine ⟨?_, ?_, ?_, ?_⟩
  · intro hcl
    constructor
    · rw [pollLoop, if_pos hcl]
    · intro h
      rw [pollLoop, if_pos (show ((Function.update obs n
          { closed := true, hash := h }) n).closed = true by
            rw [Function.update_same]),
        pollLoop, if_pos hcl]
  · intro h1 h2
    have hrun : pollLoop known timeout poll obs n ticks
        = { events := [Ev.cleanupWithPopup, Ev.clearTimer,
                       Ev.resolveHash ((obs n).hash)],
            outcome := Outcome.success ((obs n).hash),
            endTick := n, ticks := ticks + 1 } := by
      rw [pollLoop, if_neg (by simp [h1]), if_pos h2]
    rw [hrun]
    exact ⟨rfl, rfl⟩
  · intro h1 h2 hg
    rw [pollLoop, if_neg (by simp [h1]), if_neg (by simp [h2]), dif_pos hg]
  · intro h1 h2 hg
    rw [pollLoop, if_neg (by simp [h1]), if_neg (by simp [h2]), dif_neg hg]

/-- C9 witness: on a closed tick the session is unchanged when the hash
observed on that tick is replaced, and the counter is untouched. -/
theorem pollLoop_tick_counter_w :
    pollLoop (fun _ => false) 6000 2000
        (Function.update (fun _ => { closed := true, hash := "" }) 1
          { closed := true, hash := "#ignored" }) 1 5
      = pollLoop (fun _ => false) 6000 2000
          (fun _ => { closed := true, hash := "" }) 1 5 :=
  ((pollLoop_tick_counter (fun _ => false) 6000 2000
      (fun _ => { closed := true, hash := "" }) 1 5).1 rfl).2 "#ignored"

/-- C10: if the same-origin gate fails instead of resolving, the promise
returned by `monitorPopupForHash` never settles — no Result, none of the
three rejections — and no cleanup runs, because the gate's rejection has no
handler and the poll loop is never started. -/
theorem monitorPopupForHash_gate_failed (known : String → Bool)
    (timeout poll : ℕ) (W : ℕ → PopupState) :
    monitorPopupForHash known timeout poll GateResult.failed W = none
    ∧ sessionEvents (monitorPopupForHash known timeout poll GateResult.failed W)
        = []
    ∧ ∀ e, e ∈ sessionEvents
        (monitorPopupForHash known timeout poll GateResult.failed W) → False := by
  refine ⟨rfl, rfl, ?_⟩
  intro e he
  simp [monitorPopupForHash, sessionEvents] at he
